import Mathlib

/-!
Verification development for the UniTrust demo scripts
(`demo/runners/uni_reg_a.py`, `uni_reg_c.py`, `uni_admin_a.py`).

The scripts keep their bookkeeping in Python dicts mutated by webhook
handlers and operator commands.  We embed those dicts as association
lists in insertion order (Python 3.7+ dicts preserve insertion order),
and each handler as a pure state-transformer.  External effects are
modelled by explicit parameters:

* `json.loads` is an oracle `parse : String → Option ParsedJson`
  (`none` models a raised `JSONDecodeError`);
* the outcome of an outbound `admin_POST`/`admin_GET` is a boolean or
  small enumeration parameter (the code catches all exceptions from
  these calls);
* `uuid.uuid4()` is a fresh-identifier supply `gen : Nat → String`
  indexed by a per-agent draw counter kept in the state;
* `time.time()` is an explicit `now : Nat` argument.
-/

namespace UniTrust

/-! ## Python dict model: association lists in insertion order -/

/-- `d[k]` lookup (`k in d` is `(dictGet m k).isSome`). -/
def dictGet {κ α : Type} [DecidableEq κ] (m : List (κ × α)) (k : κ) : Option α :=
  match m with
  | [] => none
  | (k', v) :: rest => if k' = k then some v else dictGet rest k

/-- `d[k] = v`: update in place when the key is present, else append
(Python dicts keep insertion order). -/
def dictSet {κ α : Type} [DecidableEq κ] (m : List (κ × α)) (k : κ) (v : α) :
    List (κ × α) :=
  match m with
  | [] => [(k, v)]
  | (k', v') :: rest =>
      if k' = k then (k, v) :: rest else (k', v') :: dictSet rest k v

/-- `del d[k]`. -/
def dictDel {κ α : Type} [DecidableEq κ] (m : List (κ × α)) (k : κ) :
    List (κ × α) :=
  match m with
  | [] => []
  | (k', v') :: rest => if k' = k then rest else (k', v') :: dictDel rest k

/-- The keys of the dict, in insertion order. -/
def dictKeys {κ α : Type} (m : List (κ × α)) : List κ := m.map Prod.fst

/-- Real Python dicts never hold a key twice; our association lists
carry this as an invariant. -/
def KeysNodup {κ α : Type} (m : List (κ × α)) : Prop := (dictKeys m).Nodup

instance {κ α : Type} [DecidableEq κ] (m : List (κ × α)) :
    Decidable (KeysNodup m) :=
  inferInstanceAs (Decidable (dictKeys m).Nodup)

theorem dictGet_dictSet_self {κ α : Type} [DecidableEq κ]
    (m : List (κ × α)) (k : κ) (v : α) : dictGet (dictSet m k v) k = some v := by
  induction m with
  | nil => simp [dictGet, dictSet]
  | cons hd tl ih =>
      obtain ⟨k', v'⟩ := hd
      by_cases h : k' = k <;> simp [dictGet, dictSet, h, ih]

theorem dictGet_dictSet_ne {κ α : Type} [DecidableEq κ]
    (m : List (κ × α)) (k k' : κ) (v : α) (h : k' ≠ k) :
    dictGet (dictSet m k v) k' = dictGet m k' := by
  have h' : k ≠ k' := Ne.symm h
  induction m with
  | nil => simp [dictGet, dictSet, h']
  | cons hd tl ih =>
      obtain ⟨k₀, v₀⟩ := hd
      by_cases h₀ : k₀ = k
      · subst h₀
        simp [dictGet, dictSet, h']
      · by_cases h₁ : k₀ = k' <;> simp [dictGet, dictSet, h₀, h₁, h, h', ih]

theorem mem_dictKeys_dictSet {κ α : Type} [DecidableEq κ]
    (m : List (κ × α)) (k k' : κ) (v : α) :
    k' ∈ dictKeys (dictSet m k v) ↔ k' ∈ dictKeys m ∨ k' = k := by
  induction m with
  | nil => simp [dictSet, dictKeys]
  | cons hd tl ih =>
      obtain ⟨k₀, v₀⟩ := hd
      by_cases h₀ : k₀ = k
      · subst h₀
        simp [dictSet, dictKeys]
        tauto
      · simp only [dictSet, if_neg h₀, dictKeys, List.map_cons, List.mem_cons]
        simp only [dictKeys] at ih
        rw [ih]
        tauto

theorem keysNodup_dictSet {κ α : Type} [DecidableEq κ]
    (m : List (κ × α)) (k : κ) (v : α) (h : KeysNodup m) :
    KeysNodup (dictSet m k v) := by
  induction m with
  | nil => simp [dictSet, KeysNodup, dictKeys]
  | cons hd tl ih =>
      obtain ⟨k₀, v₀⟩ := hd
      simp only [KeysNodup, dictKeys, List.map_cons, List.nodup_cons] at h
      by_cases h₀ : k₀ = k
      · subst h₀
        simpa [dictSet, KeysNodup, dictKeys] using h
      · simp only [dictSet, if_neg h₀, KeysNodup, dictKeys, List.map_cons,
          List.nodup_cons]
        refine ⟨?_, ih h.2⟩
        intro hmem
        have hmem' : k₀ ∈ dictKeys (dictSet tl k v) := hmem
        rw [mem_dictKeys_dictSet] at hmem'
        rcases hmem' with hmem' | hmem'
        · exact h.1 hmem'
        · exact h₀ hmem'

theorem dictGet_eq_none_of_not_mem {κ α : Type} [DecidableEq κ]
    (m : List (κ × α)) (k : κ) (h : k ∉ dictKeys m) : dictGet m k = none := by
  induction m with
  | nil => rfl
  | cons hd tl ih =>
      obtain ⟨k₀, v₀⟩ := hd
      simp only [dictKeys, List.map_cons, List.mem_cons] at h
      push_neg at h
      have h₀ : k₀ ≠ k := Ne.symm h.1
      simp only [dictKeys] at ih
      simp [dictGet, h₀, ih h.2]

theorem dictGet_dictDel_self {κ α : Type} [DecidableEq κ]
    (m : List (κ × α)) (k : κ) (h : KeysNodup m) :
    dictGet (dictDel m k) k = none := by
  induction m with
  | nil => rfl
  | cons hd tl ih =>
      obtain ⟨k₀, v₀⟩ := hd
      simp only [KeysNodup, dictKeys, List.map_cons, List.nodup_cons] at h
      by_cases h₀ : k₀ = k
      · subst h₀
        simp only [dictDel, if_pos rfl]
        exact dictGet_eq_none_of_not_mem tl k₀ h.1
      · simp [dictDel, dictGet, h₀, ih h.2]

theorem dictGet_dictDel_ne {κ α : Type} [DecidableEq κ]
    (m : List (κ × α)) (k k' : κ) (h : k' ≠ k) :
    dictGet (dictDel m k) k' = dictGet m k' := by
  have h' : k ≠ k' := Ne.symm h
  induction m with
  | nil => rfl
  | cons hd tl ih =>
      obtain ⟨k₀, v₀⟩ := hd
      by_cases h₀ : k₀ = k
      · subst h₀
        simp [dictDel, dictGet, h']
      · by_cases h₁ : k₀ = k' <;> simp [dictDel, dictGet, h₀, h₁, h, h', ih]

/-! ## Python truthiness for optional strings

The scripts test `if not x:` on attributes that are either `None` or a
string; both `None` and the empty string are falsy. -/

def pyFalsy (o : Option String) : Bool :=
  match o with
  | none => true
  | some s => s = ""

/-- `a or b` on two Python strings. -/
def pyOr (a b : String) : String := if a = "" then b else a

/-! ## Data model -/

/-- The domain payload (`student_data`): a JSON object of string
attributes, modelled as a field list. -/
abbrev StudentData := List (String × String)

/-- An entry of `pending_credentials` as built by
`send_approval_request` and mutated by `handle_approval_response`
(`uni_reg_a.py` / `uni_reg_c.py`).  `response_time` is absent until a
response is recorded. -/
structure PendingCred where
  student_data : StudentData
  request_time : Nat
  status : String
  response_time : Option Nat
deriving DecidableEq, Repr

/-- A parsed JSON object, restricted to the fields the handlers read.
A field is `none` when the key is absent from the object
(`dict.get` returning `None`). -/
structure JDict where
  type_ : Option String
  approval_id : Option String
  approved : Option Bool
  comments : Option String
  student_data : Option StudentData
  connection_id : Option String
deriving DecidableEq, Repr

/-- Result of a successful `json.loads` on a message content: either a
JSON value that is not an object, or an object. -/
inductive ParsedJson where
  | notDict
  | dict (d : JDict)
deriving DecidableEq, Repr

/-- The slice of the `UniRegAAgent` / `UniRegCAgent` state touched by
the approval tracker (`__init__` of `uni_reg_a.py`; `uni_reg_c.py` has
the same fields).  `next_uuid` is the draw counter of the modelled
`uuid.uuid4()` supply. -/
structure TrackerState where
  pending_credentials : List (String × PendingCred)
  approval_responses : List (String × JDict)
  admin_connection_id : Option String
  holder_connection_id : Option String
  connection_id : Option String
  cred_attrs : List (Option String × StudentData)
  cred_def_id : Option String
  next_uuid : Nat
deriving DecidableEq, Repr

/-! ## Approval tracker operations (`uni_reg_a.py`, mirrored in
`uni_reg_c.py`) -/

/-- `UniRegAAgent.handle_approval_response` (uni_reg_a.py:213-238;
identical in uni_reg_c.py:306-331).  The argument `p` is the result of
`json.loads` on the message content (`none` = the parse raised, which
the surrounding `except` swallows). -/
def handle_approval_response (st : TrackerState) (p : Option ParsedJson)
    (now : Nat) : TrackerState :=
  match p with
  | none => st
  | some ParsedJson.notDict => st
  | some (ParsedJson.dict r) =>
      if r.type_ = some "credential_approval_response" then
        match r.approval_id with
        | none => st
        | some aid =>
            match dictGet st.pending_credentials aid with
            | none => st
            | some pc =>
                { st with
                  approval_responses := dictSet st.approval_responses aid r,
                  pending_credentials := dictSet st.pending_credentials aid
                    { pc with
                      status := if r.approved = some true then "approved"
                                else "rejected",
                      response_time := some now } }
      else st

/-- `UniRegAAgent.get_holder_connection_id` (uni_reg_a.py:97-105). -/
def get_holder_connection_id (st : TrackerState) : Option String :=
  if ¬ pyFalsy st.holder_connection_id then st.holder_connection_id
  else if ¬ pyFalsy st.connection_id then st.connection_id
  else none

/-- `UniRegAAgent.process_approved_credential` (uni_reg_a.py:240-289;
uni_reg_c.py has the same code, and
`process_approved_credential_for_holder` shares its branch structure).
`post_ok` models the outcome of the `admin_POST` to
`/issue-credential-2.0/send-offer`; a raise is caught and leaves the
tracker maps untouched.  `generate_credential_offer` is inlined up to
its only state effect, the `cred_attrs[cred_def_id]` write. -/
def process_approved_credential (st : TrackerState) (approval_id : String)
    (post_ok : Bool) : TrackerState :=
  match dictGet st.pending_credentials approval_id with
  | none => st
  | some pc =>
      match dictGet st.approval_responses approval_id with
      | none => st
      | some resp =>
          if resp.approved = some true then
            match get_holder_connection_id st with
            | none => st
            | some _ =>
                let st1 := { st with
                  cred_attrs := dictSet st.cred_attrs st.cred_def_id
                    pc.student_data }
                if post_ok then
                  { st1 with
                    pending_credentials :=
                      dictDel st1.pending_credentials approval_id,
                    approval_responses :=
                      dictDel st1.approval_responses approval_id }
                else st1
          else st

/-- `UniRegAAgent.generate_approval_request` (uni_reg_a.py:106-118;
uni_reg_c.py:192-203): draws a fresh identifier from the uuid supply. -/
def generate_approval_request (gen : Nat → String) (st : TrackerState) :
    String := gen st.next_uuid

/-- `UniRegAAgent.send_approval_request` (uni_reg_a.py:120-150;
uni_reg_c.py:205-236).  Returns the approval id on success, `None`
otherwise; `post_ok` models the `admin_POST` of the request message.
The uuid draw happens before the POST is attempted. -/
def send_approval_request (gen : Nat → String) (st : TrackerState)
    (student_data : StudentData) (now : Nat) (post_ok : Bool) :
    Option String × TrackerState :=
  if pyFalsy st.admin_connection_id then (none, st)
  else
    let aid := generate_approval_request gen st
    let st1 := { st with next_uuid := st.next_uuid + 1 }
    if post_ok then
      (some aid,
        { st1 with
          pending_credentials := dictSet st1.pending_credentials aid
            { student_data := student_data,
              request_time := now,
              status := "pending_approval",
              response_time := none } })
    else (none, st1)

/-- One requested `submit` call: the payload, the wall-clock reading
and whether the outbound POST succeeds. -/
structure SubmitCall where
  student_data : StudentData
  now : Nat
  post_ok : Bool

/-- A sequence of `send_approval_request` calls, collecting the
returned ids. -/
def run_submits (gen : Nat → String) (st : TrackerState) :
    List SubmitCall → TrackerState × List (Option String)
  | [] => (st, [])
  | c :: cs =>
      let (r, st1) := send_approval_request gen st c.student_data c.now c.post_ok
      let (st2, rs) := run_submits gen st1 cs
      (st2, r :: rs)

/-- `UniRegAAgent.handle_basicmessages` (uni_reg_a.py:153-174;
identical in uni_reg_c.py:239-260).  Returns the new state and the
number of `log_msg` calls made at this level (logs made inside
`handle_approval_response` are not counted).  `parse` models
`json.loads`; `handle_approval_response` re-parses the same content and
therefore receives `parse content`. -/
def handle_basicmessages (parse : String → Option ParsedJson)
    (st : TrackerState) (content : String) (now : Nat) :
    TrackerState × Nat :=
  if content = "" then (st, 0)
  else
    match parse content with
    | some (ParsedJson.dict d) =>
        if d.type_ = some "credential_approval_response" then
          (handle_approval_response st (parse content) now, 1)
        else (st, 1)
    | _ => (st, 1)

/-! ## C1: recording an approval response -/

/-- Concrete tracker state for the C1 counterexample: one pending
approval `"id-1"`. -/
def c1_st0 : TrackerState :=
  { pending_credentials :=
      [("id-1",
        { student_data := [("student_name", "Alice")], request_time := 0,
          status := "pending_approval", response_time := none })],
    approval_responses := [],
    admin_connection_id := some "adm-conn",
    holder_connection_id := some "hold-conn",
    connection_id := some "hold-conn",
    cred_attrs := [],
    cred_def_id := some "cd-1",
    next_uuid := 1 }

/-- An approval-response message for `"id-1"` carrying the given
`approved` flag. -/
def c1_resp (approved : Bool) : ParsedJson :=
  ParsedJson.dict
    { type_ := some "credential_approval_response",
      approval_id := some "id-1",
      approved := some approved,
      comments := some "",
      student_data := none,
      connection_id := none }

/-- C1, counterexample.  A second delivery of a response for the same
approval id is not a no-op: after `"id-1"` is resolved `approved` at
time 5, re-delivering a response with `approved = false` at time 9
flips the already-recorded terminal state to `rejected` and refreshes
its timestamp, contradicting the claimed idempotence. -/
theorem c1_second_response_overwrites_terminal_state :
    (dictGet (TrackerState.pending_credentials
        (handle_approval_response c1_st0 (some (c1_resp true)) 5))
        "id-1").map PendingCred.status
      = some "approved"
  ∧ (dictGet (TrackerState.pending_credentials (handle_approval_response
        (handle_approval_response c1_st0 (some (c1_resp true)) 5)
        (some (c1_resp false)) 9)) "id-1").map PendingCred.status
      = some "rejected"
  ∧ (dictGet (TrackerState.pending_credentials (handle_approval_response
        (handle_approval_response c1_st0 (some (c1_resp true)) 5)
        (some (c1_resp false)) 9)) "id-1").map PendingCred.response_time
      = some (some 9) := by
  refine ⟨?_, ?_, ?_⟩ <;> rfl

/-- C1, amended.  `handle_approval_response` on an approval id absent
from `pending_credentials` leaves the whole state unchanged (the
NotFound case degrades to a silent drop); on a known id — whether still
pending or already resolved — it stores the delivered response, sets
the status to `approved`/`rejected` according to the delivered flag,
stamps the response time with the current clock, and touches no other
entry.  In particular a re-delivery re-applies the update instead of
being a no-op. -/
theorem handle_approval_response_spec (st : TrackerState) (r : JDict)
    (aid : String) (now : Nat)
    (hty : r.type_ = some "credential_approval_response")
    (hid : r.approval_id = some aid) :
    (dictGet st.pending_credentials aid = none →
        handle_approval_response st (some (ParsedJson.dict r)) now = st)
  ∧ (∀ pc, dictGet st.pending_credentials aid = some pc →
        dictGet (TrackerState.pending_credentials
            (handle_approval_response st (some (ParsedJson.dict r)) now)) aid
          = some { pc with
                   status := if r.approved = some true then "approved"
                             else "rejected",
                   response_time := some now }
      ∧ dictGet (TrackerState.approval_responses
            (handle_approval_response st (some (ParsedJson.dict r)) now)) aid
          = some r
      ∧ (∀ k, k ≠ aid →
          dictGet (TrackerState.pending_credentials
              (handle_approval_response st (some (ParsedJson.dict r)) now)) k
            = dictGet st.pending_credentials k
        ∧ dictGet (TrackerState.approval_responses
              (handle_approval_response st (some (ParsedJson.dict r)) now)) k
            = dictGet st.approval_responses k)) := by
  constructor
  · intro habs
    simp [handle_approval_response, hty, hid, habs]
  · intro pc hpc
    simp only [handle_approval_response, hty, hid, hpc, if_pos rfl]
    refine ⟨?_, ?_, ?_⟩
    · exact dictGet_dictSet_self ..
    · exact dictGet_dictSet_self ..
    · intro k hk
      exact ⟨dictGet_dictSet_ne _ _ _ _ hk, dictGet_dictSet_ne _ _ _ _ hk⟩

/-- Witness for the amended C1 theorem at concrete inputs: the unknown
id `"id-9"` is dropped without any state change, and the known id
`"id-1"` is stamped `approved` at time 5. -/
theorem handle_approval_response_spec_witness :
    (handle_approval_response c1_st0
        (some (ParsedJson.dict
          { type_ := some "credential_approval_response",
            approval_id := some "id-9", approved := some true,
            comments := some "", student_data := none,
            connection_id := none })) 5 = c1_st0)
  ∧ (dictGet (TrackerState.pending_credentials
        (handle_approval_response c1_st0 (some (c1_resp true)) 5)) "id-1"
      = some { student_data := [("student_name", "Alice")],
               request_time := 0, status := "approved",
               response_time := some 5 }) := by
  constructor
  · exact (handle_approval_response_spec c1_st0
      { type_ := some "credential_approval_response",
        approval_id := some "id-9", approved := some true,
        comments := some "", student_data := none,
        connection_id := none } "id-9" 5 rfl rfl).1 rfl
  · exact ((handle_approval_response_spec c1_st0
      { type_ := some "credential_approval_response",
        approval_id := some "id-1", approved := some true,
        comments := some "", student_data := none,
        connection_id := none } "id-1" 5 rfl rfl).2
      { student_data := [("student_name", "Alice")], request_time := 0,
        status := "pending_approval", response_time := none } rfl).1

/-! ## C2: consuming a resolved approval -/

/-- Concrete tracker state for C2: `"id-1"` was submitted, then a
rejection was recorded for it (the state produced by
`handle_approval_response` on a rejecting response). -/
def c2_st0 : TrackerState :=
  { pending_credentials :=
      [("id-1",
        { student_data := [("student_name", "Bob")], request_time := 0,
          status := "rejected", response_time := some 4 })],
    approval_responses :=
      [("id-1",
        { type_ := some "credential_approval_response",
          approval_id := some "id-1", approved := some false,
          comments := some "no", student_data := none,
          connection_id := none })],
    admin_connection_id := some "adm-conn",
    holder_connection_id := some "hold-conn",
    connection_id := some "hold-conn",
    cred_attrs := [],
    cred_def_id := some "cd-1",
    next_uuid := 1 }

/-- C2, counterexample.  `process_approved_credential` does not succeed
on a `rejected` id: with `"id-1"` resolved as rejected it returns with
the state — in particular both tracker maps — completely unchanged, so
the record is never removed and a later lookup still finds it,
contradicting the claim that consumption succeeds on any resolved
(approved or rejected) id. -/
theorem c2_rejected_id_not_consumed :
    process_approved_credential c2_st0 "id-1" true = c2_st0
  ∧ (dictGet c2_st0.pending_credentials "id-1").isSome = true
  ∧ (dictGet c2_st0.approval_responses "id-1").isSome = true := by
  refine ⟨?_, ?_, ?_⟩ <;> rfl

/-- C2, amended.  `process_approved_credential` leaves the state
unchanged when the approval id is unknown, when no response has been
recorded yet (still pending), or when the recorded response is not an
approval (rejected ids are never consumed and stay in both maps).
Only on an approved id — given an available holder connection and a
successful offer POST — does it remove the record from both tracker
maps, after which the same id is no longer found and a repeated
consumption is a no-op (at-most-once consumption), other entries being
untouched. -/
theorem process_approved_credential_spec (st : TrackerState) (aid : String)
    (post_ok : Bool) :
    (dictGet st.pending_credentials aid = none →
        process_approved_credential st aid post_ok = st)
  ∧ (dictGet st.approval_responses aid = none →
        process_approved_credential st aid post_ok = st)
  ∧ (∀ resp, dictGet st.approval_responses aid = some resp →
        ¬ resp.approved = some true →
        process_approved_credential st aid post_ok = st)
  ∧ (∀ pc resp hc, dictGet st.pending_credentials aid = some pc →
        dictGet st.approval_responses aid = some resp →
        resp.approved = some true →
        get_holder_connection_id st = some hc →
        KeysNodup st.pending_credentials →
        KeysNodup st.approval_responses →
        dictGet (TrackerState.pending_credentials
            (process_approved_credential st aid true)) aid = none
      ∧ dictGet (TrackerState.approval_responses
            (process_approved_credential st aid true)) aid = none
      ∧ (∀ b, process_approved_credential
            (process_approved_credential st aid true) aid b
          = process_approved_credential st aid true)
      ∧ (∀ k, k ≠ aid →
          dictGet (TrackerState.pending_credentials
              (process_approved_credential st aid true)) k
            = dictGet st.pending_credentials k
        ∧ dictGet (TrackerState.approval_responses
              (process_approved_credential st aid true)) k
            = dictGet st.approval_responses k)) := by
  refine ⟨?_, ?_, ?_, ?_⟩
  · intro h
    simp [process_approved_credential, h]
  · intro h
    cases hp : dictGet st.pending_credentials aid <;>
      simp [process_approved_credential, h, hp]
  · intro resp hr ha
    cases hp : dictGet st.pending_credentials aid <;>
      simp [process_approved_credential, hr, hp, ha]
  · intro pc resp hc hp hr ha hhc hn1 hn2
    have hres : process_approved_credential st aid true
        = { st with
            cred_attrs := dictSet st.cred_attrs st.cred_def_id pc.student_data,
            pending_credentials := dictDel st.pending_credentials aid,
            approval_responses := dictDel st.approval_responses aid } := by
      simp [process_approved_credential, hp, hr, ha, hhc]
    have h1 : dictGet (TrackerState.pending_credentials
        (process_approved_credential st aid true)) aid = none := by
      rw [hres]; exact dictGet_dictDel_self _ _ hn1
    refine ⟨h1, ?_, ?_, ?_⟩
    · rw [hres]; exact dictGet_dictDel_self _ _ hn2
    · intro b
      have hnoop : ∀ s : TrackerState,
          dictGet s.pending_credentials aid = none →
          process_approved_credential s aid b = s := by
        intro s hs
        simp [process_approved_credential, hs]
      exact hnoop _ h1
    · intro k hk
      rw [hres]
      exact ⟨dictGet_dictDel_ne _ _ _ hk, dictGet_dictDel_ne _ _ _ hk⟩

/-- Concrete tracker state for the C2 witness: `"id-1"` resolved as
approved, holder connection available. -/
def c2_st1 : TrackerState :=
  { pending_credentials :=
      [("id-1",
        { student_data := [("student_name", "Bob")], request_time := 0,
          status := "approved", response_time := some 4 })],
    approval_responses :=
      [("id-1",
        { type_ := some "credential_approval_response",
          approval_id := some "id-1", approved := some true,
          comments := some "ok", student_data := none,
          connection_id := none })],
    admin_connection_id := some "adm-conn",
    holder_connection_id := some "hold-conn",
    connection_id := some "hold-conn",
    cred_attrs := [],
    cred_def_id := some "cd-1",
    next_uuid := 1 }

/-- Witness for the amended C2 theorem: on the concrete rejected state
the call is a no-op, and on the approved state the record is removed
from the pending map. -/
theorem process_approved_credential_spec_witness :
    process_approved_credential c2_st0 "id-1" false = c2_st0
  ∧ dictGet (TrackerState.pending_credentials
      (process_approved_credential c2_st1 "id-1" true)) "id-1" = none := by
  constructor
  · exact (process_approved_credential_spec c2_st0 "id-1" false).2.2.1
      { type_ := some "credential_approval_response",
        approval_id := some "id-1", approved := some false,
        comments := some "no", student_data := none,
        connection_id := none } rfl (by decide)
  · exact ((process_approved_credential_spec c2_st1 "id-1" true).2.2.2
      { student_data := [("student_name", "Bob")], request_time := 0,
        status := "approved", response_time := some 4 }
      { type_ := some "credential_approval_response",
        approval_id := some "id-1", approved := some true,
        comments := some "ok", student_data := none,
        connection_id := none }
      "hold-conn" rfl rfl rfl rfl (by decide) (by decide)).1

/-! ## Multi-holder registry (`uni_reg_c.py`) -/

/-- A `holder_connections` entry as built by `add_holder_connection`
(uni_reg_c.py:105-122).  `terminated_at`/`termination_reason` keys are
added only on termination. -/
structure HolderInfo where
  connection_id : String
  label : String
  connected_at : Nat
  credentials_issued : Nat
  status : String
  terminated_at : Option Nat
  termination_reason : Option String
deriving DecidableEq, Repr

/-- The slice of the `UniRegCAgent` state touched by the holder
registry. -/
structure RegistryState where
  holder_connections : List (String × HolderInfo)
  connection_id : Option String
  holder_connection_id : Option String
  admin_connection_id : Option String
deriving DecidableEq, Repr

/-- `UniRegCAgent.add_holder_connection` (uni_reg_c.py:105-122).
The `label` argument is the Python string passed by the caller (`""`
models a falsy label, defaulted to `"Holder-<n+1>"` where `n` is the
registry size before the insert). -/
def add_holder_connection (st : RegistryState) (conn_id : String)
    (label : String) (now : Nat) : RegistryState :=
  let info : HolderInfo :=
    { connection_id := conn_id,
      label := if label = "" then
                 "Holder-" ++ toString (st.holder_connections.length + 1)
               else label,
      connected_at := now,
      credentials_issued := 0,
      status := "active",
      terminated_at := none,
      termination_reason := none }
  let st1 := { st with
    holder_connections := dictSet st.holder_connections conn_id info }
  if pyFalsy st1.connection_id then
    { st1 with connection_id := some conn_id,
               holder_connection_id := some conn_id }
  else st1

/-- The connection ids with `status == "active"`, in registry order
(the list comprehension inside `remove_holder_connection`). -/
def active_conn_ids (m : List (String × HolderInfo)) : List String :=
  (m.filter (fun kv => kv.2.status = "active")).map Prod.fst

/-- `UniRegCAgent.remove_holder_connection` (uni_reg_c.py:124-142):
marks the entry terminated and, when the removed connection was the
primary one, repoints `connection_id`/`holder_connection_id` to the
first remaining active holder (or `None`). -/
def remove_holder_connection (st : RegistryState) (conn_id : String)
    (reason : String) (now : Nat) : RegistryState × Bool :=
  match dictGet st.holder_connections conn_id with
  | none => (st, false)
  | some info =>
      let info' := { info with
        status := "terminated",
        terminated_at := some now,
        termination_reason := some reason }
      let st1 := { st with
        holder_connections := dictSet st.holder_connections conn_id info' }
      if st.connection_id = some conn_id then
        let primary := (active_conn_ids st1.holder_connections).head?
        ({ st1 with connection_id := primary,
                    holder_connection_id := primary }, true)
      else (st1, true)

/-- `UniRegCAgent.get_active_holders` (uni_reg_c.py:187-190). -/
def get_active_holders (st : RegistryState) : List (String × HolderInfo) :=
  st.holder_connections.filter (fun kv => kv.2.status = "active")

/-- `"admin" in s.lower()`: the case-insensitive substring check of
`handle_connections` (uni_reg_c.py:279 and uni_reg_a.py:193). -/
def contains_admin (s : String) : Bool :=
  decide ("admin".data <:+: s.data.map Char.toLower)

/-- The `state == "active"` branch of `UniRegCAgent.handle_connections`
(uni_reg_c.py:271-298).  `info_ok` models whether the
`admin_GET /connections/{id}` succeeded; on a raise the connection is
registered as a holder labelled `"Unknown-Holder"`. -/
def handle_conn_active (st : RegistryState) (conn_id : String)
    (their_label alias_ : String) (info_ok : Bool) (now : Nat) :
    RegistryState :=
  if info_ok then
    if contains_admin their_label ∨ contains_admin alias_ then
      { st with admin_connection_id := some conn_id }
    else
      let st1 := add_holder_connection st conn_id (pyOr their_label alias_) now
      if pyFalsy st1.holder_connection_id then
        { st1 with holder_connection_id := some conn_id,
                   connection_id := some conn_id }
      else st1
  else
    let st1 := add_holder_connection st conn_id "Unknown-Holder" now
    if pyFalsy st1.holder_connection_id then
      { st1 with holder_connection_id := some conn_id,
                 connection_id := some conn_id }
    else st1

/-- `UniRegCAgent.handle_connections` (uni_reg_c.py:262-304). -/
def handle_connections (st : RegistryState) (conn_id : Option String)
    (state : String) (their_label alias_ : String) (info_ok : Bool)
    (now : Nat) : RegistryState :=
  if state = "active" ∧ ¬ pyFalsy conn_id then
    match conn_id with
    | some c => handle_conn_active st c their_label alias_ info_ok now
    | none => st
  else if (state = "abandoned" ∨ state = "deleted") ∧ ¬ pyFalsy conn_id then
    match conn_id with
    | some c =>
        if (dictGet st.holder_connections c).isSome then
          (remove_holder_connection st c ("connection_" ++ state) now).1
        else st
    | none => st
  else st

/-- The `state == "done"` branch of
`UniRegCAgent.handle_issue_credential_v2_0` (uni_reg_c.py:378-392):
bump `credentials_issued` and auto-terminate the connection
(`terminate_holder_connection` → `remove_holder_connection` with reason
`"auto_cleanup"`). -/
def handle_issue_credential_done (st : RegistryState) (conn_id : String)
    (now : Nat) : RegistryState :=
  match dictGet st.holder_connections conn_id with
  | none => st
  | some info =>
      let st1 := { st with
        holder_connections := dictSet st.holder_connections conn_id
          { info with credentials_issued := info.credentials_issued + 1 } }
      (remove_holder_connection st1 conn_id "auto_cleanup" now).1

/-- The registry-mutating inputs of the `UniRegCAgent` event loop:
connection webhooks, credential-issuance completion, and the
termination command path. -/
inductive RegCEvent where
  | conn (conn_id : Option String) (state : String)
      (their_label alias_ : String) (info_ok : Bool) (now : Nat)
  | credDone (conn_id : String) (now : Nat)
  | terminate (conn_id : String) (reason : String) (now : Nat)
deriving DecidableEq, Repr

/-- One step of the registry under an event. -/
def regc_step (st : RegistryState) : RegCEvent → RegistryState
  | RegCEvent.conn conn_id state their_label alias_ info_ok now =>
      handle_connections st conn_id state their_label alias_ info_ok now
  | RegCEvent.credDone conn_id now =>
      handle_issue_credential_done st conn_id now
  | RegCEvent.terminate conn_id reason now =>
      (remove_holder_connection st conn_id reason now).1

/-- A run of the registry over a sequence of events. -/
def regc_run (st : RegistryState) (evs : List RegCEvent) : RegistryState :=
  evs.foldl regc_step st

/-! ## Auxiliary facts about the registry maps -/

theorem key_mem_dictKeys_of_pair_mem {κ α : Type} {m : List (κ × α)}
    {k : κ} {v : α} (h : (k, v) ∈ m) : k ∈ dictKeys m :=
  List.mem_map_of_mem Prod.fst h

theorem dictGet_eq_of_mem_nodup {κ α : Type} [DecidableEq κ]
    {m : List (κ × α)} {k : κ} {v : α} (hn : KeysNodup m) (h : (k, v) ∈ m) :
    dictGet m k = some v := by
  induction m with
  | nil => cases h
  | cons hd tl ih =>
      obtain ⟨k₀, v₀⟩ := hd
      simp only [KeysNodup, dictKeys, List.map_cons, List.nodup_cons] at hn
      rcases List.mem_cons.mp h with h | h
      · cases h
        simp [dictGet]
      · by_cases h₀ : k₀ = k
        · subst h₀
          exact absurd (key_mem_dictKeys_of_pair_mem h) hn.1
        · simp [dictGet, h₀, ih hn.2 h]

theorem mem_of_mem_dictSet {κ α : Type} [DecidableEq κ]
    {m : List (κ × α)} {k : κ} {v : α} {p : κ × α}
    (h : p ∈ dictSet m k v) : p = (k, v) ∨ p ∈ m := by
  induction m with
  | nil => simpa [dictSet] using h
  | cons hd tl ih =>
      obtain ⟨k₀, v₀⟩ := hd
      by_cases h₀ : k₀ = k
      · subst h₀
        rcases List.mem_cons.mp (by simpa [dictSet] using h) with h | h
        · exact .inl h
        · exact .inr (List.mem_cons_of_mem _ h)
      · rcases List.mem_cons.mp (by simpa [dictSet, h₀] using h) with h | h
        · exact .inr (by simp [h])
        · rcases ih h with h | h
          · exact .inl h
          · exact .inr (List.mem_cons_of_mem _ h)

theorem mem_active_conn_ids {m : List (String × HolderInfo)} {k : String} :
    k ∈ active_conn_ids m ↔
      ∃ info, (k, info) ∈ m ∧ info.status = "active" := by
  simp only [active_conn_ids, List.mem_map, List.mem_filter,
    decide_eq_true_eq]
  constructor
  · rintro ⟨⟨k', info⟩, ⟨hm, hs⟩, rfl⟩
    exact ⟨info, hm, hs⟩
  · rintro ⟨info, hm, hs⟩
    exact ⟨(k, info), ⟨hm, hs⟩, rfl⟩

theorem dictGet_filter_active {m : List (String × HolderInfo)}
    (hn : KeysNodup m) (k : String) (info : HolderInfo) :
    dictGet (m.filter (fun kv => kv.2.status = "active")) k = some info ↔
      dictGet m k = some info ∧ info.status = "active" := by
  induction m with
  | nil => simp [dictGet]
  | cons hd tl ih =>
      obtain ⟨k₀, v₀⟩ := hd
      simp only [KeysNodup, dictKeys, List.map_cons, List.nodup_cons] at hn
      by_cases hs : v₀.status = "active"
      · have hfc : ((k₀, v₀) :: tl).filter (fun kv => kv.2.status = "active")
            = (k₀, v₀) :: tl.filter (fun kv => kv.2.status = "active") := by
          simp [List.filter_cons, hs]
        rw [hfc]
        by_cases h₀ : k₀ = k
        · subst h₀
          simp only [dictGet, if_pos rfl]
          constructor
          · intro h
            refine ⟨h, ?_⟩
            injection h with h
            rw [← h]
            exact hs
          · exact fun h => h.1
        · simp only [dictGet, if_neg h₀]
          exact ih hn.2
      · have hfc : ((k₀, v₀) :: tl).filter (fun kv => kv.2.status = "active")
            = tl.filter (fun kv => kv.2.status = "active") := by
          simp [List.filter_cons, hs]
        rw [hfc]
        by_cases h₀ : k₀ = k
        · subst h₀
          have hnone : dictGet (tl.filter
              (fun kv => kv.2.status = "active")) k₀ = none := by
            apply dictGet_eq_none_of_not_mem
            intro hmem
            exact hn.1 (((List.filter_sublist tl).map
              Prod.fst).subset hmem)
          rw [hnone]
          simp only [dictGet, if_pos rfl]
          constructor
          · intro h
            cases h
          · rintro ⟨h, hs'⟩
            injection h with h
            rw [← h] at hs'
            exact absurd hs' hs
        · rw [ih hn.2]
          simp [dictGet, h₀]

/-! ## C3: terminating a holder connection -/

/-- C3.  `remove_holder_connection`: on an unknown connection id it
returns `False` and changes nothing; on a known id it marks the entry
terminated with timestamp and reason; when the terminated connection
was the primary one, the primary pointer is repointed to the first
remaining active holder (or cleared when none remain) — in particular,
under the no-duplicate-keys dict invariant, never back to the
terminated connection itself — and when it was not the primary one,
both primary pointers are left unchanged. -/
theorem remove_holder_connection_spec (st : RegistryState)
    (c reason : String) (now : Nat) :
    (dictGet st.holder_connections c = none →
        remove_holder_connection st c reason now = (st, false))
  ∧ (∀ info, dictGet st.holder_connections c = some info →
        (remove_holder_connection st c reason now).2 = true
      ∧ dictGet (RegistryState.holder_connections
            (remove_holder_connection st c reason now).1) c
          = some { info with
                   status := "terminated",
                   terminated_at := some now,
                   termination_reason := some reason }
      ∧ (st.connection_id = some c →
            RegistryState.connection_id
                (remove_holder_connection st c reason now).1
              = (active_conn_ids (RegistryState.holder_connections
                  (remove_holder_connection st c reason now).1)).head?
          ∧ RegistryState.holder_connection_id
                (remove_holder_connection st c reason now).1
              = RegistryState.connection_id
                  (remove_holder_connection st c reason now).1
          ∧ (KeysNodup st.holder_connections →
              RegistryState.connection_id
                  (remove_holder_connection st c reason now).1 ≠ some c))
      ∧ (st.connection_id ≠ some c →
            RegistryState.connection_id
                (remove_holder_connection st c reason now).1
              = st.connection_id
          ∧ RegistryState.holder_connection_id
                (remove_holder_connection st c reason now).1
              = st.holder_connection_id)) := by
  constructor
  · intro h
    simp [remove_holder_connection, h]
  · intro info hinfo
    by_cases hp : st.connection_id = some c
    · have hres : remove_holder_connection st c reason now
          = ({ st with
               holder_connections := dictSet st.holder_connections c
                 { info with
                   status := "terminated",
                   terminated_at := some now,
                   termination_reason := some reason },
               connection_id := (active_conn_ids
                 (dictSet st.holder_connections c
                   { info with
                     status := "terminated",
                     terminated_at := some now,
                     termination_reason := some reason })).head?,
               holder_connection_id := (active_conn_ids
                 (dictSet st.holder_connections c
                   { info with
                     status := "terminated",
                     terminated_at := some now,
                     termination_reason := some reason })).head? }, true) := by
        simp [remove_holder_connection, hinfo, hp]
      refine ⟨by rw [hres], ?_, ?_, ?_⟩
      · rw [hres]
        exact dictGet_dictSet_self ..
      · intro _
        refine ⟨by rw [hres], by rw [hres], ?_⟩
        intro hn hc
        rw [hres] at hc
        simp only at hc
        have hcmem := List.mem_of_mem_head? hc
        rw [mem_active_conn_ids] at hcmem
        obtain ⟨info', hmem', hact'⟩ := hcmem
        have hget := dictGet_eq_of_mem_nodup
          (keysNodup_dictSet st.holder_connections c _ hn) hmem'
        rw [dictGet_dictSet_self] at hget
        cases hget
        simp at hact'
      · intro hne
        exact absurd hp hne
    · have hres : remove_holder_connection st c reason now
          = ({ st with
               holder_connections := dictSet st.holder_connections c
                 { info with
                   status := "terminated",
                   terminated_at := some now,
                   termination_reason := some reason } }, true) := by
        simp [remove_holder_connection, hinfo, hp]
      refine ⟨by rw [hres], ?_, ?_, ?_⟩
      · rw [hres]
        exact dictGet_dictSet_self ..
      · intro hp'
        exact absurd hp' hp
      · intro _
        rw [hres]
        exact ⟨rfl, rfl⟩

/-- Concrete registry: `"h1"` is the primary holder, `"h2"` a second
active holder, `"h3"` already terminated. -/
def c3_st : RegistryState :=
  { holder_connections :=
      [("h1",
        { connection_id := "h1", label := "Holder-1", connected_at := 0,
          credentials_issued := 0, status := "active",
          terminated_at := none, termination_reason := none }),
       ("h2",
        { connection_id := "h2", label := "Holder-2", connected_at := 1,
          credentials_issued := 0, status := "active",
          terminated_at := none, termination_reason := none }),
       ("h3",
        { connection_id := "h3", label := "Holder-3", connected_at := 2,
          credentials_issued := 1, status := "terminated",
          terminated_at := some 3, termination_reason := some "done" })],
    connection_id := some "h1",
    holder_connection_id := some "h1",
    admin_connection_id := some "adm" }

/-- Witness for C3 at concrete inputs: terminating the unknown `"hx"`
changes nothing; terminating the primary `"h1"` repoints the primary
pointer to `"h2"` (the first remaining active holder); terminating the
non-primary `"h2"` leaves the primary pointer at `"h1"`. -/
theorem remove_holder_connection_spec_witness :
    remove_holder_connection c3_st "hx" "r" 9 = (c3_st, false)
  ∧ RegistryState.connection_id
      (remove_holder_connection c3_st "h1" "bye" 9).1 = some "h2"
  ∧ RegistryState.connection_id
      (remove_holder_connection c3_st "h2" "bye" 9).1 = some "h1" := by
  refine ⟨?_, ?_, ?_⟩
  · exact (remove_holder_connection_spec c3_st "hx" "r" 9).1 rfl
  · have h := (((remove_holder_connection_spec c3_st "h1" "bye" 9).2
      { connection_id := "h1", label := "Holder-1", connected_at := 0,
        credentials_issued := 0, status := "active",
        terminated_at := none, termination_reason := none } rfl).2.2.1 rfl).1
    rw [h]
    rfl
  · exact ((((remove_holder_connection_spec c3_st "h2" "bye" 9).2
      { connection_id := "h2", label := "Holder-2", connected_at := 1,
        credentials_issued := 0, status := "active",
        terminated_at := none, termination_reason := none } rfl).2.2.2)
      (by decide)).1

/-! ## C7: listing active holders -/

/-- C7.  `get_active_holders` returns exactly the registry entries
whose status is `"active"`: under the dict invariant an id is found in
the result with a given record iff it is in the registry with that
record and the record is active; in particular no returned entry is
terminated. -/
theorem get_active_holders_spec (st : RegistryState)
    (hn : KeysNodup st.holder_connections) (k : String)
    (info : HolderInfo) :
    (dictGet (get_active_holders st) k = some info ↔
        dictGet st.holder_connections k = some info
      ∧ info.status = "active")
  ∧ (dictGet (get_active_holders st) k = some info →
        info.status ≠ "terminated") := by
  constructor
  · exact dictGet_filter_active hn k info
  · intro h
    have := ((dictGet_filter_active hn k info).mp h).2
    rw [this]
    decide

/-- Witness for C7 on the concrete registry `c3_st`: the terminated
`"h3"` is absent from `get_active_holders`, while the active `"h2"` is
present. -/
theorem get_active_holders_spec_witness :
    dictGet (get_active_holders c3_st) "h3" = none
  ∧ dictGet (get_active_holders c3_st) "h2"
      = some { connection_id := "h2", label := "Holder-2",
               connected_at := 1, credentials_issued := 0,
               status := "active", terminated_at := none,
               termination_reason := none } := by
  constructor
  · cases hh : dictGet (get_active_holders c3_st) "h3" with
    | none => rfl
    | some info =>
        have := ((get_active_holders_spec c3_st (by decide) "h3" info).1.mp
          hh).2
        have hterm : info.status = "terminated" := by
          have hget := ((get_active_holders_spec c3_st (by decide) "h3"
            info).1.mp hh).1
          simp [c3_st, dictGet] at hget
          rw [← hget]
        rw [hterm] at this
        exact absurd this (by decide)
  · exact (get_active_holders_spec c3_st (by decide) "h2"
      { connection_id := "h2", label := "Holder-2", connected_at := 1,
        credentials_issued := 0, status := "active",
        terminated_at := none, termination_reason := none }).1.mpr
      ⟨rfl, rfl⟩

/-! ## C5: classifying an active connection -/

/-- In the non-admin branch the new registry is the old one with the
freshly registered holder entry (the primary-pointer updates do not
touch the map). -/
theorem holder_connections_handle_conn_active_holder (st : RegistryState)
    (c tl al : String) (now : Nat)
    (hcond : ¬ (contains_admin tl ∨ contains_admin al : Prop)) :
    RegistryState.holder_connections (handle_conn_active st c tl al true now)
      = dictSet st.holder_connections c
        { connection_id := c,
          label := if pyOr tl al = "" then
              "Holder-" ++ toString (st.holder_connections.length + 1)
            else pyOr tl al,
          connected_at := now,
          credentials_issued := 0,
          status := "active",
          terminated_at := none,
          termination_reason := none } := by
  simp [handle_conn_active, add_holder_connection, hcond,
    apply_ite RegistryState.holder_connections]

/-- C5.  The active-connection branch of `handle_connections` (with the
`GET /connections/{id}` succeeding): if `their_label` or `alias`
contains `"admin"` case-insensitively, the connection is recorded as
the singleton admin-connection reference and the holder registry is
untouched; otherwise the admin reference is unchanged and the
connection is registered as an active holder whose label is
`their_label or alias`, defaulted to `"Holder-<n+1>"` when both are
empty.  The final conjunct identifies the code's check with the
claim's reading: `contains_admin s` holds iff some substring of `s`
lowercases to `"admin"`. -/
theorem handle_conn_active_classification (st : RegistryState)
    (c their_label alias_ : String) (now : Nat) :
    (contains_admin their_label = true ∨ contains_admin alias_ = true →
        RegistryState.admin_connection_id
            (handle_conn_active st c their_label alias_ true now) = some c
      ∧ RegistryState.holder_connections
            (handle_conn_active st c their_label alias_ true now)
          = st.holder_connections)
  ∧ (contains_admin their_label = false → contains_admin alias_ = false →
        RegistryState.admin_connection_id
            (handle_conn_active st c their_label alias_ true now)
          = st.admin_connection_id
      ∧ dictGet (RegistryState.holder_connections
            (handle_conn_active st c their_label alias_ true now)) c
          = some { connection_id := c,
                   label := if pyOr their_label alias_ = "" then
                       "Holder-" ++ toString
                         (st.holder_connections.length + 1)
                     else pyOr their_label alias_,
                   connected_at := now,
                   credentials_issued := 0,
                   status := "active",
                   terminated_at := none,
                   termination_reason := none })
  ∧ (∀ s : String, contains_admin s = true ↔
        ∃ w, w <:+: s.data ∧ w.map Char.toLower = "admin".data) := by
  refine ⟨?_, ?_, ?_⟩
  · intro h
    have hcond : (contains_admin their_label ∨ contains_admin alias_ : Prop) := by
      rcases h with h | h
      · exact Or.inl (by simp [h])
      · exact Or.inr (by simp [h])
    constructor <;>
      simp [handle_conn_active, hcond]
  · intro h1 h2
    have hcond : ¬ (contains_admin their_label ∨ contains_admin alias_ : Prop) := by
      simp [h1, h2]
    constructor
    · simp [handle_conn_active, add_holder_connection, hcond,
        apply_ite RegistryState.admin_connection_id]
    · rw [holder_connections_handle_conn_active_holder st c their_label
        alias_ now hcond]
      exact dictGet_dictSet_self ..
  · intro s
    constructor
    · intro h
      have h' : "admin".data <:+: s.data.map Char.toLower :=
        of_decide_eq_true h
      obtain ⟨p, q, hpq⟩ := h'
      rw [show p ++ "admin".data ++ q = p ++ ("admin".data ++ q) by
        simp] at hpq
      obtain ⟨l₁, l₂, hl, hm1, hm2⟩ := List.map_eq_append_iff.mp hpq.symm
      obtain ⟨w, l₃, hl₂, hw, hm3⟩ := List.map_eq_append_iff.mp hm2
      exact ⟨w, ⟨l₁, l₃, by rw [hl, hl₂]; simp⟩, hw⟩
    · rintro ⟨w, ⟨p, q, hpq⟩, hw⟩
      apply decide_eq_true
      exact ⟨p.map Char.toLower, q.map Char.toLower, by
        rw [← hpq, List.map_append, List.map_append, hw]⟩

/-- Witness for C5 at concrete inputs: the label `"UniAdmin A"`
classifies the connection as the admin reference without touching the
registry; the label `"Student X"` with empty alias registers an active
holder and leaves the admin reference alone. -/
theorem handle_conn_active_classification_witness :
    RegistryState.admin_connection_id
        (handle_conn_active c3_st "c9" "UniAdmin A" "" true 3) = some "c9"
  ∧ RegistryState.holder_connections
        (handle_conn_active c3_st "c9" "UniAdmin A" "" true 3)
      = c3_st.holder_connections
  ∧ RegistryState.admin_connection_id
        (handle_conn_active c3_st "c9" "Student X" "" true 3) = some "adm"
  ∧ dictGet (RegistryState.holder_connections
        (handle_conn_active c3_st "c9" "Student X" "" true 3)) "c9"
      = some { connection_id := "c9", label := "Student X",
               connected_at := 3, credentials_issued := 0,
               status := "active", terminated_at := none,
               termination_reason := none } := by
  refine ⟨?_, ?_, ?_, ?_⟩
  · exact ((handle_conn_active_classification c3_st "c9" "UniAdmin A" ""
      3).1 (Or.inl (by decide))).1
  · exact ((handle_conn_active_classification c3_st "c9" "UniAdmin A" ""
      3).1 (Or.inl (by decide))).2
  · exact ((handle_conn_active_classification c3_st "c9" "Student X" ""
      3).2.1 (by decide) (by decide)).1
  · have h := ((handle_conn_active_classification c3_st "c9" "Student X" ""
      3).2.1 (by decide) (by decide)).2
    rw [h]
    rfl

/-! ## C4: termination is stable except under a replayed active event -/

/-- Whether the event is a `connections` webhook reporting state
`active` for the given connection id (the only event kind that can
re-register an entry). -/
def is_active_event_for (ev : RegCEvent) (c : String) : Bool :=
  match ev with
  | RegCEvent.conn conn_id state _ _ _ _ =>
      decide (conn_id = some c) && decide (state = "active")
  | _ => false

theorem keysNodup_add_holder_connection (st : RegistryState)
    (c label : String) (now : Nat) (hn : KeysNodup st.holder_connections) :
    KeysNodup ((add_holder_connection st c label now).holder_connections) := by
  simp only [add_holder_connection]
  split
  · exact keysNodup_dictSet _ _ _ hn
  · exact keysNodup_dictSet _ _ _ hn

theorem keysNodup_remove_holder_connection (st : RegistryState)
    (c reason : String) (now : Nat) (hn : KeysNodup st.holder_connections) :
    KeysNodup ((remove_holder_connection st c reason now).1.holder_connections) := by
  cases h : dictGet st.holder_connections c with
  | none => simpa [remove_holder_connection, h] using hn
  | some info =>
      simp only [remove_holder_connection, h]
      split
      · exact keysNodup_dictSet _ _ _ hn
      · exact keysNodup_dictSet _ _ _ hn

theorem keysNodup_handle_conn_active (st : RegistryState)
    (c tl al : String) (ok : Bool) (now : Nat)
    (hn : KeysNodup st.holder_connections) :
    KeysNodup ((handle_conn_active st c tl al ok now).holder_connections) := by
  simp only [handle_conn_active]
  split
  · split
    · exact hn
    · split
      · exact keysNodup_add_holder_connection st c _ now hn
      · exact keysNodup_add_holder_connection st c _ now hn
  · split
    · exact keysNodup_add_holder_connection st c _ now hn
    · exact keysNodup_add_holder_connection st c _ now hn

theorem keysNodup_regc_step (st : RegistryState) (ev : RegCEvent)
    (hn : KeysNodup st.holder_connections) :
    KeysNodup ((regc_step st ev).holder_connections) := by
  cases ev with
  | conn conn_id state tl al ok now =>
      simp only [regc_step, handle_connections]
      split
      · cases conn_id with
        | none => exact hn
        | some c => exact keysNodup_handle_conn_active st c tl al ok now hn
      · split
        · cases conn_id with
          | none => exact hn
          | some c =>
              by_cases hmem : (dictGet st.holder_connections c).isSome = true
              · simpa [hmem] using
                  keysNodup_remove_holder_connection st c
                    ("connection_" ++ state) now hn
              · simpa [hmem] using hn
        · exact hn
  | credDone c now =>
      simp only [regc_step, handle_issue_credential_done]
      cases h : dictGet st.holder_connections c with
      | none => exact hn
      | some info =>
          exact keysNodup_remove_holder_connection _ c _ now
            (keysNodup_dictSet _ _ _ hn)
  | terminate c reason now =>
      exact keysNodup_remove_holder_connection st c reason now hn

/-- The recorded status of a connection id, `none` when unregistered. -/
def status_of (st : RegistryState) (c : String) : Option String :=
  (dictGet st.holder_connections c).map HolderInfo.status

theorem status_of_remove (st : RegistryState) (c' reason : String)
    (now : Nat) (c : String) (hterm : status_of st c = some "terminated") :
    status_of (remove_holder_connection st c' reason now).1 c
      = some "terminated" := by
  cases h : dictGet st.holder_connections c' with
  | none => simpa [remove_holder_connection, h] using hterm
  | some info =>
      have hmap : RegistryState.holder_connections
          (remove_holder_connection st c' reason now).1
            = dictSet st.holder_connections c'
              { info with
                status := "terminated",
                terminated_at := some now,
                termination_reason := some reason } := by
        simp only [remove_holder_connection, h]
        split <;> rfl
      by_cases hc : c = c'
      · subst hc
        simp only [status_of, hmap, dictGet_dictSet_self, Option.map_some']
      · simp only [status_of, hmap, dictGet_dictSet_ne _ _ _ _ hc]
        exact hterm

theorem status_of_add_ne (st : RegistryState) (c' label : String)
    (now : Nat) (c : String) (hc : c ≠ c') :
    status_of (add_holder_connection st c' label now) c = status_of st c := by
  simp only [add_holder_connection, status_of]
  split <;> simp [dictGet_dictSet_ne _ _ _ _ hc]

theorem status_of_handle_conn_active_ne (st : RegistryState)
    (c' tl al : String) (ok : Bool) (now : Nat) (c : String)
    (hne : c ≠ c') :
    status_of (handle_conn_active st c' tl al ok now) c = status_of st c := by
  simp only [handle_conn_active]
  split
  · split
    · rfl
    · split
      · exact status_of_add_ne st c' _ now c hne
      · exact status_of_add_ne st c' _ now c hne
  · split
    · exact status_of_add_ne st c' _ now c hne
    · exact status_of_add_ne st c' _ now c hne

theorem terminated_stable_regc_step (st : RegistryState) (ev : RegCEvent)
    (c : String) (hterm : status_of st c = some "terminated")
    (hev : is_active_event_for ev c = false) :
    status_of (regc_step st ev) c = some "terminated" := by
  cases ev with
  | conn conn_id state tl al ok now =>
      simp only [regc_step, handle_connections]
      split
      · rename_i hcond
        cases conn_id with
        | none => exact hterm
        | some c' =>
            have hne : c ≠ c' := by
              intro hcc
              subst hcc
              simp [is_active_event_for, hcond.1] at hev
            rw [status_of_handle_conn_active_ne st c' tl al ok now c hne]
            exact hterm
      · split
        · cases conn_id with
          | none => exact hterm
          | some c' =>
              by_cases hmem : (dictGet st.holder_connections c').isSome = true
              · simpa [hmem] using
                  status_of_remove st c' ("connection_" ++ state) now c hterm
              · simpa [hmem] using hterm
        · exact hterm
  | credDone c' now =>
      simp only [regc_step, handle_issue_credential_done]
      cases h : dictGet st.holder_connections c' with
      | none => exact hterm
      | some info =>
          apply status_of_remove
          by_cases hc : c = c'
          · subst hc
            have hst : info.status = "terminated" := by
              simp only [status_of, h, Option.map_some'] at hterm
              exact Option.some.inj hterm
            simp only [status_of, dictGet_dictSet_self, Option.map_some']
            rw [hst]
          · simp only [status_of, dictGet_dictSet_ne _ _ _ _ hc]
            exact hterm
  | terminate c' reason now =>
      exact status_of_remove st c' reason now c hterm

/-- C4, amended.  Over every sequence of connection webhook events,
credential-completion events and termination commands: the registry
always keeps at most one entry per connection id (no duplicate keys),
and once a connection's status is `terminated` it stays `terminated`
under every event except a replayed `connections/active` webhook for
that same id — such a replay re-registers the entry as an active
holder, which is the correction to the original claim. -/
theorem regc_run_invariants (evs : List RegCEvent) (st : RegistryState)
    (c : String) :
    (KeysNodup st.holder_connections →
        KeysNodup ((regc_run st evs).holder_connections))
  ∧ (status_of st c = some "terminated" →
      (∀ ev ∈ evs, is_active_event_for ev c = false) →
      status_of (regc_run st evs) c = some "terminated") := by
  induction evs generalizing st with
  | nil => exact ⟨fun h => h, fun h _ => h⟩
  | cons ev evs ih =>
      constructor
      · intro hn
        exact (ih (regc_step st ev)).1 (keysNodup_regc_step st ev hn)
      · intro hterm hev
        refine (ih (regc_step st ev)).2 ?_ ?_
        · exact terminated_stable_regc_step st ev c hterm
            (hev ev (List.mem_cons_self ev evs))
        · intro e he
          exact hev e (List.mem_cons_of_mem ev he)

/-- The empty registry at startup. -/
def regc_init : RegistryState :=
  { holder_connections := [],
    connection_id := none,
    holder_connection_id := none,
    admin_connection_id := none }

/-- C4, counterexample.  A holder connects (`"c1"` becomes active), the
connection is terminated, and then the `connections/active` webhook for
the very same `"c1"` is delivered again (webhook delivery is
at-least-once): `add_holder_connection` re-registers the entry with
status `active`, violating "once terminated, never set back to active
under the same connection_id". -/
theorem c4_terminated_reactivated_by_replayed_active :
    status_of (regc_run regc_init
        [RegCEvent.conn (some "c1") "active" "Student One" "" true 0,
         RegCEvent.terminate "c1" "credential_issued" 1])
      "c1" = some "terminated"
  ∧ status_of (regc_run regc_init
        [RegCEvent.conn (some "c1") "active" "Student One" "" true 0,
         RegCEvent.terminate "c1" "credential_issued" 1,
         RegCEvent.conn (some "c1") "active" "Student One" "" true 2])
      "c1" = some "active" := by
  constructor <;> rfl

/-- Witness for the amended C4 theorem: starting from the concrete
state `c3_st` (which has `"h3"` terminated and no duplicate keys), a
run consisting of another holder's activation, a credential completion
and a termination keeps the keys unique and keeps `"h3"` terminated. -/
theorem regc_run_invariants_witness :
    KeysNodup ((regc_run c3_st
        [RegCEvent.conn (some "c7") "active" "Student S" "" true 5,
         RegCEvent.credDone "h2" 6,
         RegCEvent.terminate "h1" "manual" 7]).holder_connections)
  ∧ status_of (regc_run c3_st
        [RegCEvent.conn (some "c7") "active" "Student S" "" true 5,
         RegCEvent.credDone "h2" 6,
         RegCEvent.terminate "h1" "manual" 7]) "h3"
      = some "terminated" := by
  constructor
  · exact (regc_run_invariants
      [RegCEvent.conn (some "c7") "active" "Student S" "" true 5,
       RegCEvent.credDone "h2" 6,
       RegCEvent.terminate "h1" "manual" 7] c3_st "h3").1 (by decide)
  · exact (regc_run_invariants
      [RegCEvent.conn (some "c7") "active" "Student S" "" true 5,
       RegCEvent.credDone "h2" 6,
       RegCEvent.terminate "h1" "manual" 7] c3_st "h3").2 rfl
      (by decide)

/-! ## C6: submitting approval requests -/

/-- The record inserted for a fresh submission. -/
def fresh_pending (sd : StudentData) (now : Nat) : PendingCred :=
  { student_data := sd, request_time := now,
    status := "pending_approval", response_time := none }

theorem send_some_eq (gen : Nat → String) (st : TrackerState)
    (sd : StudentData) (now : Nat) (post_ok : Bool) (aid : String)
    (st' : TrackerState)
    (h : send_approval_request gen st sd now post_ok = (some aid, st')) :
    aid = gen st.next_uuid
  ∧ st' = { st with
            next_uuid := st.next_uuid + 1,
            pending_credentials := dictSet st.pending_credentials
              (gen st.next_uuid) (fresh_pending sd now) } := by
  simp only [send_approval_request, generate_approval_request] at h
  split at h
  · exact absurd (congrArg Prod.fst h) (by simp)
  · split at h
    · have h1 := congrArg Prod.fst h
      have h2 := congrArg Prod.snd h
      simp only at h1 h2
      exact ⟨(Option.some.inj h1).symm, h2.symm⟩
    · exact absurd (congrArg Prod.fst h) (by simp)

theorem send_none_eq (gen : Nat → String) (st : TrackerState)
    (sd : StudentData) (now : Nat) (post_ok : Bool) (st' : TrackerState)
    (h : send_approval_request gen st sd now post_ok = (none, st')) :
    st' = st ∨ st' = { st with next_uuid := st.next_uuid + 1 } := by
  simp only [send_approval_request, generate_approval_request] at h
  split at h
  · exact Or.inl (congrArg Prod.snd h).symm
  · split at h
    · exact absurd (congrArg Prod.fst h) (by simp)
    · exact Or.inr (congrArg Prod.snd h).symm

theorem next_uuid_send_le (gen : Nat → String) (st : TrackerState)
    (sd : StudentData) (now : Nat) (post_ok : Bool) :
    st.next_uuid
      ≤ ((send_approval_request gen st sd now post_ok).2).next_uuid := by
  cases h : send_approval_request gen st sd now post_ok with
  | mk r st' =>
      cases r with
      | none =>
          rcases send_none_eq gen st sd now post_ok st' h with h' | h' <;>
            simp [h']
      | some aid =>
          rw [(send_some_eq gen st sd now post_ok aid st' h).2]
          exact Nat.le_succ _

theorem run_submits_next_uuid_ids (gen : Nat → String)
    (calls : List SubmitCall) (st : TrackerState) :
    st.next_uuid ≤ (run_submits gen st calls).1.next_uuid
  ∧ ∀ s ∈ (run_submits gen st calls).2.reduceOption,
      ∃ n, st.next_uuid ≤ n ∧ n < (run_submits gen st calls).1.next_uuid
        ∧ gen n = s := by
  induction calls generalizing st with
  | nil => exact ⟨Nat.le_refl _, by simp [run_submits]⟩
  | cons c cs ih =>
      cases hs : send_approval_request gen st c.student_data c.now
          c.post_ok with
      | mk r st1 =>
          have hle1 : st.next_uuid ≤ st1.next_uuid := by
            have := next_uuid_send_le gen st c.student_data c.now c.post_ok
            rwa [hs] at this
          have hrun : run_submits gen st (c :: cs)
              = ((run_submits gen st1 cs).1,
                 r :: (run_submits gen st1 cs).2) := by
            simp [run_submits, hs]
          rw [hrun]
          refine ⟨Nat.le_trans hle1 (ih st1).1, ?_⟩
          intro s hsmem
          cases r with
          | none =>
              rw [List.reduceOption_cons_of_none] at hsmem
              obtain ⟨n, hn1, hn2, hn3⟩ := (ih st1).2 s hsmem
              exact ⟨n, Nat.le_trans hle1 hn1, hn2, hn3⟩
          | some aid =>
              obtain ⟨haid, hst1⟩ :=
                send_some_eq gen st c.student_data c.now c.post_ok aid st1 hs
              rw [List.reduceOption_cons_of_some] at hsmem
              rcases List.mem_cons.mp hsmem with hsmem | hsmem
              · subst hsmem
                refine ⟨st.next_uuid, Nat.le_refl _, ?_, haid.symm⟩
                have : st.next_uuid < st1.next_uuid := by
                  rw [hst1]
                  exact Nat.lt_succ_self _
                exact Nat.lt_of_lt_of_le this (ih st1).1
              · obtain ⟨n, hn1, hn2, hn3⟩ := (ih st1).2 s hsmem
                exact ⟨n, Nat.le_trans hle1 hn1, hn2, hn3⟩

theorem run_submits_distinct (gen : Nat → String)
    (hg : Function.Injective gen) (calls : List SubmitCall)
    (st : TrackerState) :
    (run_submits gen st calls).2.reduceOption.Pairwise (· ≠ ·) := by
  induction calls generalizing st with
  | nil => simp [run_submits]
  | cons c cs ih =>
      cases hs : send_approval_request gen st c.student_data c.now
          c.post_ok with
      | mk r st1 =>
          have hrun : run_submits gen st (c :: cs)
              = ((run_submits gen st1 cs).1,
                 r :: (run_submits gen st1 cs).2) := by
            simp [run_submits, hs]
          rw [hrun]
          cases r with
          | none =>
              simpa [List.reduceOption_cons_of_none] using ih st1
          | some aid =>
              obtain ⟨haid, hst1⟩ :=
                send_some_eq gen st c.student_data c.now c.post_ok aid st1 hs
              simp only [List.reduceOption_cons_of_some]
              refine List.Pairwise.cons ?_ (ih st1)
              intro s hsmem heq
              obtain ⟨n, hn1, _, hn3⟩ :=
                (run_submits_next_uuid_ids gen cs st1).2 s hsmem
              have hn1' : st.next_uuid < n := by
                have : st.next_uuid < st1.next_uuid := by
                  rw [hst1]
                  exact Nat.lt_succ_self _
                exact Nat.lt_of_lt_of_le this hn1
              have : st.next_uuid = n := hg (by rw [hn3, ← heq, haid])
              exact Nat.ne_of_lt hn1' this

theorem mem_dictKeys_of_dictGet_isSome {κ α : Type} [DecidableEq κ]
    {m : List (κ × α)} {k : κ} (h : (dictGet m k).isSome) :
    k ∈ dictKeys m := by
  induction m with
  | nil => simp [dictGet] at h
  | cons hd tl ih =>
      obtain ⟨k₀, v₀⟩ := hd
      by_cases h₀ : k₀ = k
      · simp [dictKeys, h₀]
      · simp only [dictGet, if_neg h₀] at h
        simp [dictKeys, List.mem_cons]
        exact Or.inr (by simpa [dictKeys] using ih h)

/-- C6.  (i) Over every sequence of `submit`
(`send_approval_request`) calls the returned approval ids are pairwise
distinct (with `uuid.uuid4()` modelled as an injective fresh-id
supply).  (ii) A successful submit (admin connection present, POST
succeeded) inserts exactly one new `pending_approval` record under a
key not already present (given that all existing keys come from
earlier draws of the supply), and changes nothing else in the tracker.
(iii) An unsuccessful submit leaves both tracker maps unchanged. -/
theorem send_approval_request_spec (gen : Nat → String)
    (hg : Function.Injective gen) (st : TrackerState) :
    (∀ calls : List SubmitCall,
        (run_submits gen st calls).2.reduceOption.Pairwise (· ≠ ·))
  ∧ (∀ (sd : StudentData) (now : Nat),
        (∀ k ∈ dictKeys st.pending_credentials,
            ∃ n, n < st.next_uuid ∧ gen n = k) →
        ∀ (post_ok : Bool) (aid : String) (st' : TrackerState),
          send_approval_request gen st sd now post_ok = (some aid, st') →
          dictGet st.pending_credentials aid = none
        ∧ st'.pending_credentials
            = dictSet st.pending_credentials aid (fresh_pending sd now)
        ∧ st'.approval_responses = st.approval_responses
        ∧ st'.admin_connection_id = st.admin_connection_id
        ∧ st'.holder_connection_id = st.holder_connection_id
        ∧ st'.connection_id = st.connection_id
        ∧ st'.cred_attrs = st.cred_attrs)
  ∧ (∀ (sd : StudentData) (now : Nat) (post_ok : Bool)
        (st' : TrackerState),
        send_approval_request gen st sd now post_ok = (none, st') →
        st'.pending_credentials = st.pending_credentials
      ∧ st'.approval_responses = st.approval_responses) := by
  refine ⟨fun calls => run_submits_distinct gen hg calls st, ?_, ?_⟩
  · intro sd now hbound post_ok aid st' h
    obtain ⟨haid, hst'⟩ := send_some_eq gen st sd now post_ok aid st' h
    have hfresh : dictGet st.pending_credentials aid = none := by
      by_cases hmem : (dictGet st.pending_credentials aid).isSome
      · exfalso
        obtain ⟨n, hn1, hn2⟩ :=
          hbound aid (mem_dictKeys_of_dictGet_isSome hmem)
        have : n = st.next_uuid := hg (by rw [hn2, haid])
        exact Nat.lt_irrefl _ (this ▸ hn1)
      · exact Option.not_isSome_iff_eq_none.mp hmem
    subst haid
    rw [hst']
    exact ⟨hfresh, rfl, rfl, rfl, rfl, rfl, rfl⟩
  · intro sd now post_ok st' h
    rcases send_none_eq gen st sd now post_ok st' h with h' | h' <;>
      rw [h'] <;> exact ⟨rfl, rfl⟩

/-- A concrete injective uuid supply for witnesses. -/
def gen_rep (n : Nat) : String := String.mk (List.replicate (n + 1) 'u')

theorem gen_rep_injective : Function.Injective gen_rep := by
  intro a b h
  have h2 := congrArg (fun s => s.data.length) h
  simpa [gen_rep] using h2

/-- Concrete tracker state for the C6 witness: empty tracker, admin
connection established. -/
def c6_st : TrackerState :=
  { pending_credentials := [],
    approval_responses := [],
    admin_connection_id := some "adm-conn",
    holder_connection_id := some "hold-conn",
    connection_id := some "hold-conn",
    cred_attrs := [],
    cred_def_id := some "cd-1",
    next_uuid := 0 }

/-- Witness for C6: two successful submissions return pairwise
distinct ids, and a single successful submission inserts exactly the
fresh pending record under the fresh key `gen_rep 0 = "u"`. -/
theorem send_approval_request_spec_witness :
    (run_submits gen_rep c6_st
        [{ student_data := [("student_name", "A")], now := 1,
           post_ok := true },
         { student_data := [("student_name", "B")], now := 2,
           post_ok := true }]).2.reduceOption.Pairwise (· ≠ ·)
  ∧ dictGet c6_st.pending_credentials (gen_rep 0) = none
  ∧ TrackerState.pending_credentials
      { c6_st with
        next_uuid := 1,
        pending_credentials := dictSet c6_st.pending_credentials
          (gen_rep 0) (fresh_pending [("student_name", "A")] 1) }
      = dictSet c6_st.pending_credentials (gen_rep 0)
          (fresh_pending [("student_name", "A")] 1) := by
  refine ⟨?_, ?_, ?_⟩
  · exact (send_approval_request_spec gen_rep gen_rep_injective c6_st).1
      [{ student_data := [("student_name", "A")], now := 1,
         post_ok := true },
       { student_data := [("student_name", "B")], now := 2,
         post_ok := true }]
  · exact ((send_approval_request_spec gen_rep gen_rep_injective
      c6_st).2.1 [("student_name", "A")] 1
      (fun k hk => absurd hk (by simp [c6_st, dictKeys])) true (gen_rep 0)
      { c6_st with
        next_uuid := 1,
        pending_credentials := dictSet c6_st.pending_credentials
          (gen_rep 0) (fresh_pending [("student_name", "A")] 1) }
      (by rfl)).1
  · exact ((send_approval_request_spec gen_rep gen_rep_injective
      c6_st).2.1 [("student_name", "A")] 1
      (fun k hk => absurd hk (by simp [c6_st, dictKeys])) true (gen_rep 0)
      { c6_st with
        next_uuid := 1,
        pending_credentials := dictSet c6_st.pending_credentials
          (gen_rep 0) (fresh_pending [("student_name", "A")] 1) }
      (by rfl)).2.1

/-! ## The admin script (`uni_admin_a.py`) -/

/-- A `pending_approvals` entry as stored by `handle_approval_request`
(uni_admin_a.py:221-226). -/
structure PendingApproval where
  student_data : StudentData
  request_time : Nat
  registrar_connection_id : Option String
deriving DecidableEq, Repr

/-- The slice of the `UniAdminAgent` state touched by the approval
queue. -/
structure AdminState where
  pending_approvals : List (String × PendingApproval)
  registrar_connection_id : Option String
  connection_id : Option String
  next_uuid : Nat
deriving DecidableEq, Repr

/-- An inbound basic-message webhook payload as read by the admin
handlers: the `content` string (`none` when the key is absent), the
message envelope `@id`, and the payload `connection_id`. -/
structure AdminMsg where
  content : Option String
  at_id : Option String
  connection_id : Option String
deriving DecidableEq, Repr

/-- The connection-id resolution chain of `handle_approval_request`
(uni_admin_a.py:209-219): payload `connection_id` if the key is
present, else a truthy `self.registrar_connection_id`, else the
request's own `connection_id` field; finally a falsy result falls back
to a truthy `self.connection_id`. -/
def resolve_request_conn (st : AdminState) (msg : AdminMsg) (d : JDict) :
    Option String :=
  let conn :=
    match msg.connection_id with
    | some c => some c
    | none =>
        if ¬ pyFalsy st.registrar_connection_id then
          st.registrar_connection_id
        else d.connection_id
  if pyFalsy conn ∧ ¬ pyFalsy st.connection_id then st.connection_id
  else conn

/-- `UniAdminAgent.handle_approval_request` (uni_admin_a.py:155-246).
A message without content, with unparseable content (wrapped into
`{"text": ...}` by the code), or whose object carries neither the
request `type` nor a `student_data` field, is dropped.  Otherwise the
request is registered: the approval id is the payload's `approval_id`
when truthy, else the envelope `@id` when present, else a fresh uuid
draw.  (The final `is_approval_request` re-check of the code is
equivalent to the registration condition and is folded into it.) -/
def handle_approval_request (gen : Nat → String)
    (parse : String → Option ParsedJson) (st : AdminState)
    (msg : AdminMsg) (now : Nat) : AdminState :=
  match msg.content with
  | none => st
  | some content =>
      if content = "" then st
      else
        match parse content with
        | none => st
        | some ParsedJson.notDict => st
        | some (ParsedJson.dict d) =>
            if d.type_ = some "credential_approval_request"
                ∨ d.student_data.isSome then
              let aid :=
                if pyFalsy d.approval_id then
                  match msg.at_id with
                  | some i => i
                  | none => gen st.next_uuid
                else d.approval_id.getD ""
              let next :=
                if pyFalsy d.approval_id ∧ msg.at_id = none then
                  st.next_uuid + 1
                else st.next_uuid
              { st with
                pending_approvals := dictSet st.pending_approvals aid
                  { student_data := d.student_data.getD [],
                    request_time := now,
                    registrar_connection_id :=
                      resolve_request_conn st msg d },
                next_uuid := next }
            else st

/-- `UniAdminAgent.handle_basicmessage` (uni_admin_a.py:129-143).
Returns the new state and the number of `log_msg` calls at this level:
one for unparseable non-empty content ("Basic message content is not
JSON"), one when a credential-approval request is recognised; nothing
otherwise. -/
def handle_basicmessage (gen : Nat → String)
    (parse : String → Option ParsedJson) (st : AdminState)
    (msg : AdminMsg) (now : Nat) : AdminState × Nat :=
  let content := msg.content.getD ""
  if content = "" then (st, 0)
  else
    match parse content with
    | none => (st, 1)
    | some ParsedJson.notDict => (st, 0)
    | some (ParsedJson.dict d) =>
        if d.type_ = some "credential_approval_request" then
          (handle_approval_request gen parse st msg now, 1)
        else (st, 0)

/-- The connection used by `send_approval_response`: the stored
registrar connection when truthy, else the default connection
(uni_admin_a.py:253-263). -/
def response_target_conn (st : AdminState) (pa : PendingApproval) :
    Option String :=
  if ¬ pyFalsy pa.registrar_connection_id then pa.registrar_connection_id
  else st.connection_id

/-- Outcome of the connection-status check preceding the send
(uni_admin_a.py:266-285): the connection is (or becomes) active, the
bounded wait times out (the function returns), or the `GET` raises
(logged, and the send is attempted anyway). -/
inductive ConnCheck where
  | activeNow
  | timeout
  | raised
deriving DecidableEq, Repr

/-- `UniAdminAgent.send_approval_response` (uni_admin_a.py:248-321).
`post_ok` models the send-message POST; the pending entry is deleted
only in the `success` branch after the POST. -/
def send_approval_response (st : AdminState) (approval_id : String)
    (approved : Bool) (comments : String) (check : ConnCheck)
    (post_ok : Bool) : AdminState :=
  match dictGet st.pending_approvals approval_id with
  | none => st
  | some pa =>
      if pyFalsy (response_target_conn st pa) then st
      else
        match check with
        | ConnCheck.timeout => st
        | _ =>
            if post_ok then
              { st with pending_approvals :=
                  dictDel st.pending_approvals approval_id }
            else st

/-! ## C8: malformed inbound basic messages -/

/-- Oracle for a content string that `json.loads` rejects. -/
def parse_fail : String → Option ParsedJson := fun _ => none

/-- Oracle for a content string that parses to a JSON value that is
not an object (e.g. `42`). -/
def parse_not_dict : String → Option ParsedJson :=
  fun _ => some ParsedJson.notDict

/-- Concrete registrar tracker state for C8. -/
def c8_reg_st : TrackerState :=
  { pending_credentials :=
      [("id-1", fresh_pending [("student_name", "Eve")] 0)],
    approval_responses := [],
    admin_connection_id := some "adm-conn",
    holder_connection_id := some "hold-conn",
    connection_id := some "hold-conn",
    cred_attrs := [],
    cred_def_id := some "cd-1",
    next_uuid := 1 }

/-- Concrete admin state for C8. -/
def c8_admin_st : AdminState :=
  { pending_approvals := [],
    registrar_connection_id := some "reg-conn",
    connection_id := some "reg-conn",
    next_uuid := 0 }

/-- C8, counterexample.  Two malformed payloads are dropped with *no*
log entry, contradicting "produces a log entry": the registrar handler
on an empty content (`json.loads("")` would fail, but the truthiness
guard skips everything including the log), and the admin handler on
content `"42"` — valid JSON that is not an object — which falls
through both the `JSONDecodeError` branch and the type check without
logging.  In both cases the state is unchanged and no exception
escapes, but the log-entry half of the claim fails. -/
theorem c8_malformed_dropped_without_log :
    handle_basicmessages parse_fail c8_reg_st "" 7 = (c8_reg_st, 0)
  ∧ handle_basicmessage gen_rep parse_not_dict c8_admin_st
      { content := some "42", at_id := none, connection_id := none } 7
      = (c8_admin_st, 0) := by
  constructor <;> rfl

/-- C8, amended.  For every inbound basic-message payload whose
content fails JSON parsing, parses to a non-object, or parses to an
object that is not the handled message type, both handlers return
normally (they are total functions), leave their state unchanged, and
log as follows: the registrar handler logs exactly once iff the
content is non-empty, while the admin handler logs exactly once iff
the non-empty content fails JSON parsing — i.e. an empty content, and
on the admin side any parseable-but-unrecognised content, is dropped
silently with no log entry. -/
theorem handle_basicmessages_malformed_spec
    (parse : String → Option ParsedJson) (gen : Nat → String)
    (rst : TrackerState) (ast : AdminState) (content : String)
    (msg : AdminMsg) (now : Nat)
    (hmal : parse content = none
      ∨ parse content = some ParsedJson.notDict
      ∨ ∃ d, parse content = some (ParsedJson.dict d)
          ∧ d.type_ ≠ some "credential_approval_response"
          ∧ d.type_ ≠ some "credential_approval_request") :
    ((handle_basicmessages parse rst content now).1 = rst
  ∧ (handle_basicmessages parse rst content now).2
      = if content = "" then 0 else 1)
  ∧ (msg.content.getD "" = content →
      (handle_basicmessage gen parse ast msg now).1 = ast
    ∧ (handle_basicmessage gen parse ast msg now).2
        = if content = "" then 0
          else if parse content = none then 1 else 0) := by
  constructor
  · by_cases hc : content = ""
    · subst hc
      exact ⟨rfl, rfl⟩
    · rcases hmal with h | h | ⟨d, h, ht, _⟩
      · simp [handle_basicmessages, hc, h]
      · simp [handle_basicmessages, hc, h]
      · simp [handle_basicmessages, hc, h, ht]
  · intro hcm
    by_cases hc : content = ""
    · rw [← hcm] at hc ⊢
      simp [handle_basicmessage, hc]
    · rcases hmal with h | h | ⟨d, h, _, ht⟩
      · simp [handle_basicmessage, hcm, hc, h]
      · simp [handle_basicmessage, hcm, hc, h]
      · simp [handle_basicmessage, hcm, hc, h, ht]

/-- Witness for the amended C8 theorem: a non-empty unparseable
content is logged once by the registrar handler and once by the admin
handler, with both states unchanged. -/
theorem handle_basicmessages_malformed_spec_witness :
    ((handle_basicmessages parse_fail c8_reg_st "oops" 7).1 = c8_reg_st
  ∧ (handle_basicmessages parse_fail c8_reg_st "oops" 7).2 = 1)
  ∧ ((handle_basicmessage gen_rep parse_fail c8_admin_st
        { content := some "oops", at_id := none,
          connection_id := none } 7).1 = c8_admin_st
  ∧ (handle_basicmessage gen_rep parse_fail c8_admin_st
        { content := some "oops", at_id := none,
          connection_id := none } 7).2 = 1) := by
  have h := handle_basicmessages_malformed_spec parse_fail gen_rep
    c8_reg_st c8_admin_st "oops"
    { content := some "oops", at_id := none, connection_id := none } 7
    (Or.inl rfl)
  refine ⟨⟨h.1.1, ?_⟩, ?_⟩
  · rw [h.1.2]
    rfl
  · obtain ⟨h1, h2⟩ := h.2 rfl
    refine ⟨h1, ?_⟩
    rw [h2]
    rfl

/-! ## C9: sending the approval response -/

/-- C9.  `send_approval_response` deletes the pending entry only after
the outbound POST succeeds: an unknown approval id, an unavailable
connection (stored and default both falsy), a connection that never
becomes active, and a raised POST all leave `pending_approvals` (and
the rest of the state) unchanged; on success exactly the one entry is
removed, others untouched — so on error the operation is atomic and
retryable. -/
theorem send_approval_response_spec (st : AdminState) (aid : String)
    (approved : Bool) (comments : String) (check : ConnCheck)
    (post_ok : Bool) :
    (dictGet st.pending_approvals aid = none →
        send_approval_response st aid approved comments check post_ok = st)
  ∧ (∀ pa, dictGet st.pending_approvals aid = some pa →
        (pyFalsy (response_target_conn st pa) = true →
          send_approval_response st aid approved comments check post_ok
            = st)
      ∧ (check = ConnCheck.timeout →
          send_approval_response st aid approved comments check post_ok
            = st)
      ∧ (post_ok = false →
          send_approval_response st aid approved comments check post_ok
            = st)
      ∧ (pyFalsy (response_target_conn st pa) = false →
          check ≠ ConnCheck.timeout →
          AdminState.pending_approvals
              (send_approval_response st aid approved comments check true)
            = dictDel st.pending_approvals aid
        ∧ AdminState.registrar_connection_id
              (send_approval_response st aid approved comments check true)
            = st.registrar_connection_id
        ∧ AdminState.connection_id
              (send_approval_response st aid approved comments check true)
            = st.connection_id
        ∧ (KeysNodup st.pending_approvals →
            dictGet (AdminState.pending_approvals
              (send_approval_response st aid approved comments check true))
              aid = none)
        ∧ (∀ k, k ≠ aid →
            dictGet (AdminState.pending_approvals
              (send_approval_response st aid approved comments check true))
              k = dictGet st.pending_approvals k))) := by
  constructor
  · intro h
    simp [send_approval_response, h]
  · intro pa hpa
    refine ⟨?_, ?_, ?_, ?_⟩
    · intro hconn
      simp [send_approval_response, hpa, hconn]
    · intro hch
      subst hch
      cases hconn : pyFalsy (response_target_conn st pa) <;>
        simp [send_approval_response, hpa, hconn]
    · intro hpost
      subst hpost
      cases hconn : pyFalsy (response_target_conn st pa)
      · cases check <;> simp [send_approval_response, hpa, hconn]
      · simp [send_approval_response, hpa, hconn]
    · intro hconn hch
      have hres : send_approval_response st aid approved comments check true
          = { st with pending_approvals :=
                dictDel st.pending_approvals aid } := by
        cases check with
        | timeout => exact absurd rfl hch
        | activeNow => simp [send_approval_response, hpa, hconn]
        | raised => simp [send_approval_response, hpa, hconn]
      rw [hres]
      refine ⟨rfl, rfl, rfl, ?_, ?_⟩
      · intro hn
        exact dictGet_dictDel_self _ _ hn
      · intro k hk
        exact dictGet_dictDel_ne _ _ _ hk

/-- Concrete admin state for the C9 witness: one pending approval with
a stored registrar connection. -/
def c9_st : AdminState :=
  { pending_approvals :=
      [("ap-1",
        { student_data := [("student_name", "Fay")], request_time := 2,
          registrar_connection_id := some "reg-conn" })],
    registrar_connection_id := some "reg-conn",
    connection_id := some "reg-conn",
    next_uuid := 0 }

/-- Witness for C9: an unknown id is a no-op, a failed POST leaves the
entry in place, and a successful send removes exactly it. -/
theorem send_approval_response_spec_witness :
    send_approval_response c9_st "nope" true "" ConnCheck.activeNow true
      = c9_st
  ∧ send_approval_response c9_st "ap-1" true "" ConnCheck.activeNow false
      = c9_st
  ∧ AdminState.pending_approvals
      (send_approval_response c9_st "ap-1" true "" ConnCheck.activeNow
        true)
      = dictDel c9_st.pending_approvals "ap-1"
  ∧ dictGet (AdminState.pending_approvals
      (send_approval_response c9_st "ap-1" true "" ConnCheck.activeNow
        true)) "ap-1" = none := by
  refine ⟨?_, ?_, ?_, ?_⟩
  · exact (send_approval_response_spec c9_st "nope" true ""
      ConnCheck.activeNow true).1 rfl
  · exact ((send_approval_response_spec c9_st "ap-1" true ""
      ConnCheck.activeNow false).2
      { student_data := [("student_name", "Fay")], request_time := 2,
        registrar_connection_id := some "reg-conn" } rfl).2.2.1 rfl
  · exact (((send_approval_response_spec c9_st "ap-1" true ""
      ConnCheck.activeNow true).2
      { student_data := [("student_name", "Fay")], request_time := 2,
        registrar_connection_id := some "reg-conn" } rfl).2.2.2 rfl
      (by intro h; cases h)).1
  · exact (((send_approval_response_spec c9_st "ap-1" true ""
      ConnCheck.activeNow true).2
      { student_data := [("student_name", "Fay")], request_time := 2,
        registrar_connection_id := some "reg-conn" } rfl).2.2.2 rfl
      (by intro h; cases h)).2.2.2.1 (by decide)

/-! ## C10: approval requests without an approval_id -/

/-- C10.  `handle_approval_request` does not drop a request whose JSON
lacks (or has a falsy) `approval_id`: when the object carries the
request type or — even with no `type` field at all — a `student_data`
field, the request is registered in `pending_approvals` under the
envelope's `@id` when that key is present, else under a freshly drawn
uuid; the stored record carries the payload's student data, the
current time and the resolved return connection. -/
theorem handle_approval_request_missing_id_spec (gen : Nat → String)
    (parse : String → Option ParsedJson) (st : AdminState)
    (msg : AdminMsg) (now : Nat) (content : String) (d : JDict)
    (hc : msg.content = some content) (hne : content ≠ "")
    (hp : parse content = some (ParsedJson.dict d))
    (hid : pyFalsy d.approval_id = true)
    (hreq : d.type_ = some "credential_approval_request"
      ∨ d.student_data.isSome = true) :
    (∀ i, msg.at_id = some i →
        dictGet (AdminState.pending_approvals
            (handle_approval_request gen parse st msg now)) i
          = some { student_data := d.student_data.getD [],
                   request_time := now,
                   registrar_connection_id := resolve_request_conn st msg d })
  ∧ (msg.at_id = none →
        dictGet (AdminState.pending_approvals
            (handle_approval_request gen parse st msg now))
            (gen st.next_uuid)
          = some { student_data := d.student_data.getD [],
                   request_time := now,
                   registrar_connection_id :=
                     resolve_request_conn st msg d }) := by
  have hcond : (d.type_ = some "credential_approval_request"
      ∨ d.student_data.isSome = true : Prop) := hreq
  constructor
  · intro i hi
    simp only [handle_approval_request, hc, if_neg hne, hp,
      if_pos hcond, hid, if_pos rfl, hi]
    exact dictGet_dictSet_self ..
  · intro hi
    simp only [handle_approval_request, hc, if_neg hne, hp,
      if_pos hcond, hid, if_pos rfl, hi]
    exact dictGet_dictSet_self ..

/-- Oracle for a content string parsing to an object that carries only
`student_data` (no `type`, no `approval_id`). -/
def parse_student_data : String → Option ParsedJson :=
  fun _ => some (ParsedJson.dict
    { type_ := none, approval_id := none, approved := none,
      comments := none, student_data := some [("student_name", "Gil")],
      connection_id := none })

/-- Witness for C10: a payload carrying only `student_data` (no
`type`, no `approval_id`) is registered under the envelope `@id`
`"env-7"`; the same payload without an `@id` is registered under the
fresh uuid `gen_rep 0`. -/
theorem handle_approval_request_missing_id_spec_witness :
    dictGet (AdminState.pending_approvals
        (handle_approval_request gen_rep parse_student_data c8_admin_st
          { content := some "data", at_id := some "env-7",
            connection_id := some "conn-3" } 4)) "env-7"
      = some { student_data := [("student_name", "Gil")],
               request_time := 4,
               registrar_connection_id := some "conn-3" }
  ∧ dictGet (AdminState.pending_approvals
        (handle_approval_request gen_rep parse_student_data c8_admin_st
          { content := some "data", at_id := none,
            connection_id := some "conn-3" } 4)) (gen_rep 0)
      = some { student_data := [("student_name", "Gil")],
               request_time := 4,
               registrar_connection_id := some "conn-3" } := by
  constructor
  · have h := (handle_approval_request_missing_id_spec gen_rep
      parse_student_data c8_admin_st
      { content := some "data", at_id := some "env-7",
        connection_id := some "conn-3" } 4 "data"
      { type_ := none, approval_id := none, approved := none,
        comments := none,
        student_data := some [("student_name", "Gil")],
        connection_id := none }
      rfl (by decide) rfl rfl (Or.inr rfl)).1 "env-7" rfl
    exact h
  · have h := (handle_approval_request_missing_id_spec gen_rep
      parse_student_data c8_admin_st
      { content := some "data", at_id := none,
        connection_id := some "conn-3" } 4 "data"
      { type_ := none, approval_id := none, approved := none,
        comments := none,
        student_data := some [("student_name", "Gil")],
        connection_id := none }
      rfl (by decide) rfl rfl (Or.inr rfl)).2 rfl
    exact h

end UniTrust
